import Mathlib

/-!
# Verification of the Model Card Collector against its specification

Shallow embedding of `model_card_collector.py` and
`model_card_collector_shared.py`. Strings are modelled as Lean `String`
(worked on as `List Char`), Python dictionary values as the inductive
`PyVal`, and Python exceptions as `Except String`. The regular-expression
searches of the source are embedded as dedicated matchers that reproduce
`re.search` semantics (leftmost match; greedy quantifiers with the
backtracking behaviour the concrete patterns exhibit). `\d` and the
case-folding of `re.IGNORECASE` are modelled on ASCII, which is the
alphabet of all pattern literals in the source.
-/

namespace ModelCardCollector

/-- Model of a Python value as it can occur in the metadata dictionaries
(`card.data.to_dict()` can hold values of arbitrary type). -/
inductive PyVal where
  | vNone : PyVal
  | vBool : Bool → PyVal
  | vInt : Int → PyVal
  | vStr : String → PyVal
  | vList : List PyVal → PyVal

/-- Python truthiness (`if metadata['tags']:` etc.). -/
def pyTruthy : PyVal → Bool
  | .vNone => false
  | .vBool b => b
  | .vInt n => n ≠ 0
  | .vStr s => s ≠ ""
  | .vList l => !l.isEmpty

/-- Python type name, used in `TypeError` messages. -/
def pyTypeName : PyVal → String
  | .vNone => "NoneType"
  | .vBool _ => "bool"
  | .vInt _ => "int"
  | .vStr _ => "str"
  | .vList _ => "list"

/-- Lower-case hexadecimal digit. -/
def hexDigitChar (n : Nat) : Char :=
  if n < 10 then Char.ofNat (48 + n) else Char.ofNat (87 + n)

/-- Python `repr` of a string (quote selection and escaping as CPython
does for ASCII input). -/
def pyReprStr (s : String) : String :=
  let q : Char := if s.data.contains '\'' && !s.data.contains '"' then '"' else '\''
  let esc : Char → String := fun c =>
    if c = '\\' then "\\\\"
    else if c = q then "\\".push q
    else if c = '\n' then "\\n"
    else if c = '\r' then "\\r"
    else if c = '\t' then "\\t"
    else if c.toNat < 32 || c.toNat == 127 then
      "\\x".push (hexDigitChar (c.toNat / 16)) |>.push (hexDigitChar (c.toNat % 16))
    else String.mk [c]
  String.mk [q] ++ String.join (s.data.map esc) ++ String.mk [q]

/-- Python `repr` of a value. -/
def pyRepr : PyVal → String
  | .vNone => "None"
  | .vBool true => "True"
  | .vBool false => "False"
  | .vInt n => toString n
  | .vStr s => pyReprStr s
  | .vList l => "[" ++ String.intercalate ", " (l.attach.map (fun x => pyRepr x.1)) ++ "]"
decreasing_by
  have := List.sizeOf_lt_of_mem x.2
  simp_wf
  omega

/-- Python `str` of a value (`str(tag)` in the source). -/
def pyStr : PyVal → String
  | .vStr s => s
  | v => pyRepr v

/-- Python iteration (`for tag in v`): lists yield their elements, strings
their characters; other values raise `TypeError`. -/
def pyIter : PyVal → Except String (List PyVal)
  | .vList l => .ok l
  | .vStr s => .ok (s.data.map (fun c => .vStr (String.mk [c])))
  | v => .error ("'" ++ pyTypeName v ++ "' object is not iterable")

/-- Python slicing `v[:n]`: only sequences support it. -/
def pySlice (n : Nat) : PyVal → Except String PyVal
  | .vList l => .ok (.vList (l.take n))
  | .vStr s => .ok (.vStr (String.mk (s.data.take n)))
  | v => .error ("'" ++ pyTypeName v ++ "' object is not subscriptable")

/-- `str.join` argument check: every item must be a `str`. -/
def joinCheck (i : Nat) : List PyVal → Except String (List String)
  | [] => .ok []
  | .vStr s :: rest => (joinCheck (i + 1) rest).map (fun tl => s :: tl)
  | v :: _ =>
    .error ("sequence item " ++ toString i ++ ": expected str instance, "
      ++ pyTypeName v ++ " found")

/-- Python `sep.join(v)`. -/
def pyJoin (sep : String) (v : PyVal) : Except String String := do
  let items ← pyIter v
  let strs ← joinCheck 0 items
  pure (String.intercalate sep strs)

/-- Side-channel metadata mapping (`card.data.to_dict()`); only the four
keys the source ever reads are modelled, each absent (`none`) or bound to
an arbitrary Python value. -/
structure Metadata where
  tags : Option PyVal := none
  datasets : Option PyVal := none
  license : Option PyVal := none
  language : Option PyVal := none

/-! ## Character classes and pattern matchers -/

/-- Python `\s` (whitespace class of the `re` module for `str` patterns). -/
def pyIsSpace (c : Char) : Bool :=
  let n := c.toNat
  n == 32 || n == 9 || n == 10 || n == 13 || n == 11 || n == 12 ||
  (28 ≤ n && n ≤ 31) || n == 133 || n == 160 || n == 0x1680 ||
  (0x2000 ≤ n && n ≤ 0x200a) || n == 0x2028 || n == 0x2029 ||
  n == 0x202f || n == 0x205f || n == 0x3000

/-- Case-insensitive literal match at the head of the input
(`re.IGNORECASE`, ASCII folding). -/
def startsWithCI : List Char → List Char → Bool
  | [], _ => true
  | _ :: _, [] => false
  | a :: as, b :: bs => (Char.toLower a == Char.toLower b) && startsWithCI as bs

/-- Substring test, Python `needle in hay` on strings. -/
def isSubstr (needle : List Char) : List Char → Bool
  | [] => needle.isEmpty
  | c :: t => needle.isPrefixOf (c :: t) || isSubstr needle t

/-- Length of the maximal run of characters satisfying `p` at the head. -/
def countWhile (p : Char → Bool) : List Char → Nat
  | [] => 0
  | c :: t => if p c then countWhile p t + 1 else 0

/-- Index of the last occurrence of `c` in the list, if any. -/
def lastIdxOf (c : Char) : List Char → Option Nat
  | [] => none
  | x :: t =>
    match lastIdxOf c t with
    | some i => some (i + 1)
    | none => if x == c then some 0 else none

/-- Matches `\d+(?:\.\d+)?` at the head of the input, returning the number
of characters consumed. For the patterns of the source no backtracking out
of this greedy parse can ever succeed (the following pattern element is
never a digit or a dot), so the greedy result is the `re` result. -/
def matchNumber (l : List Char) : Option Nat :=
  let d := countWhile Char.isDigit l
  if d == 0 then none
  else
    match l.drop d with
    | '.' :: r2 =>
      let d2 := countWhile Char.isDigit r2
      if d2 == 0 then some d else some (d + 1 + d2)
    | _ => some d

/-- `[BM]` with `re.IGNORECASE`. -/
def isBM (c : Char) : Bool := Char.toLower c == 'b' || Char.toLower c == 'm'

/-- Match of `(\d+(?:\.\d+)?)\s*[BM]\s+parameters` at the head of the
input; returns the length of the full match (`group(0)`). -/
def matchParamP1 (l : List Char) : Option Nat :=
  match matchNumber l with
  | none => none
  | some n =>
    let l1 := l.drop n
    let s1 := countWhile pyIsSpace l1
    match l1.drop s1 with
    | c :: l2 =>
      if isBM c then
        let s2 := countWhile pyIsSpace l2
        if s2 == 0 then none
        else if startsWithCI "parameters".data (l2.drop s2) then
          some (n + s1 + 1 + s2 + 10)
        else none
      else none
    | [] => none

/-- Match of `parameters[:\s]+(\d+(?:\.\d+)?)\s*[BM]` at the head. -/
def matchParamP2 (l : List Char) : Option Nat :=
  if startsWithCI "parameters".data l then
    let l1 := l.drop 10
    let s1 := countWhile (fun c => c == ':' || pyIsSpace c) l1
    if s1 == 0 then none
    else
      match matchNumber (l1.drop s1) with
      | none => none
      | some n =>
        let l2 := l1.drop (s1 + n)
        let s2 := countWhile pyIsSpace l2
        match l2.drop s2 with
        | c :: _ => if isBM c then some (10 + s1 + n + s2 + 1) else none
        | [] => none
  else none

/-- Match of `(\d+(?:\.\d+)?)[BM]\s+params` at the head. -/
def matchParamP3 (l : List Char) : Option Nat :=
  match matchNumber l with
  | none => none
  | some n =>
    match l.drop n with
    | c :: l2 =>
      if isBM c then
        let s2 := countWhile pyIsSpace l2
        if s2 == 0 then none
        else if startsWithCI "params".data (l2.drop s2) then
          some (n + 1 + s2 + 6)
        else none
      else none
    | [] => none

/-- Match of `model size[:\s]+(\d+(?:\.\d+)?)\s*[BM]` at the head. -/
def matchParamP4 (l : List Char) : Option Nat :=
  if startsWithCI "model size".data l then
    let l1 := l.drop 10
    let s1 := countWhile (fun c => c == ':' || pyIsSpace c) l1
    if s1 == 0 then none
    else
      match matchNumber (l1.drop s1) with
      | none => none
      | some n =>
        let l2 := l1.drop (s1 + n)
        let s2 := countWhile pyIsSpace l2
        match l2.drop s2 with
        | c :: _ => if isBM c then some (10 + s1 + n + s2 + 1) else none
        | [] => none
  else none

/-- `re.search` over a head matcher that returns the match length: scan
positions left to right, return `(start, end)` of the leftmost match. -/
def searchPat (m : List Char → Option Nat) : List Char → Nat → Option (Nat × Nat)
  | l, i =>
    match m l with
    | some n => some (i, i + n)
    | none =>
      match l with
      | [] => none
      | _ :: t => searchPat m t (i + 1)

/-- Leftmost match of `m` in `l`, as `(match.start(), match.end())`. -/
def reSearch (m : List Char → Option Nat) (l : List Char) : Option (Nat × Nat) :=
  searchPat m l 0

/-- The ordered pattern list of `extract_parameters_from_card`. -/
def paramPatterns : List ((List Char → Option Nat) × String) :=
  [(matchParamP1, "Model Card text"),
   (matchParamP2, "Model Card parameters section"),
   (matchParamP3, "Model Card params mention"),
   (matchParamP4, "Model Card size specification")]

/-- The `for pattern, source_desc in patterns` loop: first pattern with a
search hit wins; returns `(source_desc, start, end)`. -/
def findFirstMatch : List ((List Char → Option Nat) × String) → List Char →
    Option (String × Nat × Nat)
  | [], _ => none
  | (m, d) :: ps, l =>
    match reSearch m l with
    | some (s, e) => some (d, s, e)
    | none => findFirstMatch ps l

/-- The tag keywords of the metadata fallback. -/
def sizeKeywords : List String := ["base", "large", "small", "7b", "13b", "70b"]

/-- `any(size in str(tag).lower() for size in [...])`. -/
def tagMatches (tag : PyVal) : Bool :=
  sizeKeywords.any (fun size => isSubstr size.data ((pyStr tag).data.map Char.toLower))

/-- The `for tag in metadata['tags']` loop body: first matching tag. -/
def findTag : List PyVal → Option PyVal
  | [] => none
  | t :: ts => if tagMatches t then some t else findTag ts

/-- The "card unavailable" sentinel of the source. -/
def cardUnavailable : String := "Model Card nicht verfügbar"

/-- Embedding of `ModelCollector.extract_parameters_from_card`. The card
text is `none` when absent; Python exceptions (only the `TypeError` of
iterating a non-iterable `tags` value) surface as `Except.error`. -/
def extract_parameters_from_card (card : Option String) (metadata : Metadata) :
    Except String (String × String) :=
  match card with
  | none => .ok ("Not found in Model Card", "Model Card not available")
  | some s =>
    if s = "" || s = cardUnavailable then
      .ok ("Not found in Model Card", "Model Card not available")
    else
      let content := s.data
      match findFirstMatch paramPatterns content with
      | some (desc, st, en) =>
        let ctxStart := st - 50
        let ctxEnd := min content.length (en + 50)
        let context := ((content.drop ctxStart).take (ctxEnd - ctxStart)).map
          (fun c => if c = '\n' then ' ' else c)
        .ok (String.mk ((content.drop st).take (en - st)),
             desc ++ ": '" ++ String.mk context ++ "...'")
      | none =>
        match metadata.tags with
        | some tv =>
          if pyTruthy tv then
            match pyIter tv with
            | .error e => .error e
            | .ok tags =>
              match findTag tags with
              | some t => .ok ("Inferred from tags: " ++ pyStr t, "Model metadata tags")
              | none =>
                .ok ("Not specified in Model Card",
                     "Model Card checked, no parameter count found")
          else
            .ok ("Not specified in Model Card",
                 "Model Card checked, no parameter count found")
        | none =>
          .ok ("Not specified in Model Card",
               "Model Card checked, no parameter count found")

/-- Match of `LIT\s*\n(.{0,500})` (with `re.DOTALL`) at the head,
returning `group(1)`. `\s*` is greedy and backtracks until the following
`\n` matches, so the newline consumed is the **last** newline of the
whitespace run after the literal. -/
def matchSectionHdr (lit : List Char) (l : List Char) : Option (List Char) :=
  if startsWithCI lit l then
    let rest := l.drop lit.length
    let run := countWhile pyIsSpace rest
    match lastIdxOf '\n' (rest.take run) with
    | none => none
    | some k => some ((rest.drop (k + 1)).take 500)
  else none

/-- Match of `LIT[:\s]+(.{0,cap})` (with `re.DOTALL`) at the head,
returning `group(1)`. -/
def matchInline (lit : List Char) (cap : Nat) (l : List Char) : Option (List Char) :=
  if startsWithCI lit l then
    let rest := l.drop lit.length
    let run := countWhile (fun c => c == ':' || pyIsSpace c) rest
    if run == 0 then none else some ((rest.drop run).take cap)
  else none

/-- `re.search` over a head matcher returning a capture. -/
def reSearchCap (m : List Char → Option (List Char)) : List Char → Option (List Char)
  | [] => m []
  | c :: t =>
    match m (c :: t) with
    | some r => some r
    | none => reSearchCap m t

/-- The ordered section-pattern list of `extract_training_data_from_card`. -/
def sectionPatterns : List ((List Char → Option (List Char)) × String) :=
  [(matchSectionHdr "## Training Data".data, "Model Card: 'Training Data' section"),
   (matchSectionHdr "## Dataset".data, "Model Card: 'Dataset' section"),
   (matchInline "Training Data".data 300, "Model Card: Training Data description"),
   (matchInline "Trained on".data 300, "Model Card: Training description"),
   (matchInline "Pre-training data".data 300, "Model Card: Pre-training data section")]

/-- Python `str.strip()` (default whitespace). -/
def stripChars (l : List Char) : List Char :=
  ((l.dropWhile pyIsSpace).reverse.dropWhile pyIsSpace).reverse

/-- `text.split('\n')[0]`. -/
def firstLine (l : List Char) : List Char := l.takeWhile (fun c => c ≠ '\n')

/-- `match.group(1).strip().split('\n')[0][:200]`. -/
def processCapture (cap : List Char) : List Char :=
  (firstLine (stripChars cap)).take 200

/-- The section loop of `extract_training_data_from_card`: on a search hit
whose processed text is empty the loop moves on to the next pattern. -/
def findSection : List ((List Char → Option (List Char)) × String) → List Char →
    Option (String × String)
  | [], _ => none
  | (m, d) :: ps, l =>
    match reSearchCap m l with
    | some cap =>
      let text := processCapture cap
      if text = [] then findSection ps l else some (String.mk text, d)
    | none => findSection ps l

/-- The `datasets` metadata fallback:
`", ".join(metadata['datasets'][:5])`. -/
def datasetsJoin (dv : PyVal) : Except String String := do
  let sliced ← pySlice 5 dv
  pyJoin ", " sliced

/-- Embedding of `ModelCollector.extract_training_data_from_card`. -/
def extract_training_data_from_card (card : Option String) (metadata : Metadata) :
    Except String (String × String) :=
  let fallbackMiss : Except String (String × String) :=
    .ok ("Not specified in Model Card",
         "Model Card checked, no training data info found")
  match card with
  | none =>
    match metadata.datasets with
    | some dv =>
      if pyTruthy dv then do
        let j ← datasetsJoin dv
        pure (j, "Hugging Face metadata: 'datasets' field")
      else .ok ("Not specified", "Model Card not available")
    | none => .ok ("Not specified", "Model Card not available")
  | some s =>
    if s = "" || s = cardUnavailable then
      match metadata.datasets with
      | some dv =>
        if pyTruthy dv then do
          let j ← datasetsJoin dv
          pure (j, "Hugging Face metadata: 'datasets' field")
        else .ok ("Not specified", "Model Card not available")
      | none => .ok ("Not specified", "Model Card not available")
    else
      match findSection sectionPatterns s.data with
      | some r => .ok r
      | none =>
        match metadata.datasets with
        | some dv =>
          if pyTruthy dv then do
            let j ← datasetsJoin dv
            pure (j, "Hugging Face metadata: 'datasets' field")
          else fallbackMiss
        | none => fallbackMiss

/-! ## Static reference tables (`model_card_collector_shared.py`) -/

/-- A paper reference record (`{url, title, authors, venue}`). -/
structure PaperRef where
  paper_url : String
  paper_title : String
  authors : String
  venue : String
deriving Repr, DecidableEq

/-- `PAPER_SOURCES`, in its defined (insertion) order. -/
def PAPER_SOURCES : List (String × PaperRef) :=
  [("BERT", ⟨"https://arxiv.org/abs/1810.04805",
     "BERT: Pre-training of Deep Bidirectional Transformers", "Devlin et al., 2019", "NAACL"⟩),
   ("RoBERTa", ⟨"https://arxiv.org/abs/1907.11692",
     "RoBERTa: A Robustly Optimized BERT Pretraining Approach", "Liu et al., 2019", "arXiv"⟩),
   ("SciBERT", ⟨"https://arxiv.org/abs/1903.10676",
     "SciBERT: A Pretrained Language Model for Scientific Text", "Beltagy et al., 2019", "EMNLP"⟩),
   ("BioBERT", ⟨"https://arxiv.org/abs/1901.08746",
     "BioBERT: a pre-trained biomedical language representation model", "Lee et al., 2020", "Bioinformatics"⟩),
   ("ELECTRA", ⟨"https://arxiv.org/abs/2003.10555",
     "ELECTRA: Pre-training Text Encoders as Discriminators", "Clark et al., 2020", "ICLR"⟩),
   ("Llama", ⟨"https://arxiv.org/abs/2307.09288",
     "Llama 2: Open Foundation and Fine-Tuned Chat Models", "Touvron et al., 2023", "arXiv"⟩),
   ("Llama-3", ⟨"https://arxiv.org/abs/2407.21783",
     "The Llama 3 Herd of Models", "Meta AI, 2024", "arXiv"⟩),
   ("T5", ⟨"https://arxiv.org/abs/1910.10683",
     "Exploring the Limits of Transfer Learning with T5", "Raffel et al., 2020", "JMLR"⟩),
   ("BART", ⟨"https://arxiv.org/abs/1910.13461",
     "BART: Denoising Sequence-to-Sequence Pre-training", "Lewis et al., 2020", "ACL"⟩),
   ("mT5", ⟨"https://arxiv.org/abs/2010.11934",
     "mT5: A massively multilingual text-to-text transformer", "Xue et al., 2021", "NAACL"⟩),
   ("GPT-4", ⟨"https://cdn.openai.com/papers/gpt-4-system-card.pdf",
     "GPT-4 System Card", "OpenAI, 2023", "OpenAI"⟩),
   ("GPT-4o", ⟨"https://cdn.openai.com/gpt-4o-system-card.pdf",
     "GPT-4o System Card", "OpenAI, 2024", "OpenAI"⟩),
   ("Claude", ⟨"https://assets.anthropic.com/m/61e7d27f8c8f5919/original/Claude-3-Model-Card.pdf",
     "Claude 3 Model Card", "Anthropic, 2024", "Anthropic"⟩),
   ("Gemini", ⟨"https://storage.googleapis.com/deepmind-media/gemini/gemini_1_report.pdf",
     "Gemini: A Family of Highly Capable Multimodal Models", "Google DeepMind, 2023", "Google"⟩)]

/-- One `{"id": ..., "version": ...}` entry of a `huggingface` list. -/
structure HFModelRef where
  id : String
  version : String
deriving Repr, DecidableEq

/-- One `{"name": ..., "released": ...}` entry of a `versions` list. -/
structure VersionInfo where
  name : String
  released : String
deriving Repr, DecidableEq

/-- One value of `ARCHITECTURE_DEFS`; the `huggingface` and `versions`
keys are optional in the source dictionaries. -/
structure FamilyInfo where
  architecture : String
  description : String
  huggingface : Option (List HFModelRef) := none
  versions : Option (List VersionInfo) := none
  year : Int
  organization : String
deriving Repr, DecidableEq

/-- `ARCHITECTURE_DEFS`, in its defined (insertion) order. -/
def ARCHITECTURE_DEFS : List (String × FamilyInfo) :=
  [("BERT",
    { architecture := "Encoder-only",
      description := "Bidirectional Encoder Representations from Transformers",
      huggingface := some [⟨"google-bert/bert-base-uncased", "base"⟩,
                           ⟨"google-bert/bert-large-uncased", "large"⟩],
      year := 2018, organization := "Google" }),
   ("RoBERTa",
    { architecture := "Encoder-only",
      description := "Robustly Optimized BERT Pretraining Approach",
      huggingface := some [⟨"FacebookAI/roberta-base", "base"⟩,
                           ⟨"FacebookAI/roberta-large", "large"⟩],
      year := 2019, organization := "Facebook AI" }),
   ("SciBERT",
    { architecture := "Encoder-only",
      description := "BERT variant for scientific text",
      huggingface := some [⟨"allenai/scibert_scivocab_uncased", "scivocab"⟩],
      year := 2019, organization := "Allen AI" }),
   ("BioBERT",
    { architecture := "Encoder-only",
      description := "BERT for biomedical text mining",
      huggingface := some [⟨"dmis-lab/biobert-v1.1", "v1.1"⟩],
      year := 2019, organization := "DMIS Lab" }),
   ("ELECTRA",
    { architecture := "Encoder-only",
      description := "Efficiently Learning an Encoder",
      huggingface := some [⟨"google/electra-base-discriminator", "base"⟩],
      year := 2020, organization := "Google" }),
   ("GPT-4",
    { architecture := "Decoder-only",
      description := "Generative Pre-trained Transformer 4",
      versions := some [⟨"GPT-4", "2023-03-14"⟩, ⟨"GPT-4 Turbo", "2023-11-06"⟩,
                        ⟨"GPT-4o", "2024-05-13"⟩],
      year := 2023, organization := "OpenAI" }),
   ("Claude",
    { architecture := "Decoder-only",
      description := "Constitutional AI language model",
      versions := some [⟨"Claude 2", "2023-07"⟩, ⟨"Claude 3 Haiku", "2024-03-04"⟩,
                        ⟨"Claude 3 Sonnet", "2024-03-04"⟩, ⟨"Claude 3 Opus", "2024-03-04"⟩,
                        ⟨"Claude 3.5 Sonnet", "2024-06-20"⟩],
      year := 2023, organization := "Anthropic" }),
   ("Llama",
    { architecture := "Decoder-only",
      description := "Large Language Model Meta AI",
      huggingface := some [⟨"meta-llama/Llama-2-7b-hf", "Llama 2 7B"⟩,
                           ⟨"meta-llama/Llama-2-13b-hf", "Llama 2 13B"⟩,
                           ⟨"meta-llama/Llama-2-70b-hf", "Llama 2 70B"⟩,
                           ⟨"meta-llama/Llama-3.1-8B", "Llama 3.1 8B"⟩],
      year := 2023, organization := "Meta" }),
   ("Gemini",
    { architecture := "Decoder-only",
      description := "Multimodal AI model by Google",
      versions := some [⟨"Gemini 1.0 Pro", "2023-12-06"⟩, ⟨"Gemini 1.5 Pro", "2024-02-15"⟩,
                        ⟨"Gemini 1.5 Flash", "2024-05-14"⟩, ⟨"Gemini 2.0 Flash", "2024-12"⟩],
      year := 2023, organization := "Google DeepMind" }),
   ("T5",
    { architecture := "Encoder-Decoder",
      description := "Text-to-Text Transfer Transformer",
      huggingface := some [⟨"google-t5/t5-small", "small"⟩, ⟨"google-t5/t5-base", "base"⟩,
                           ⟨"google-t5/t5-large", "large"⟩, ⟨"google-t5/t5-3b", "3B"⟩,
                           ⟨"google-t5/t5-11b", "11B"⟩],
      year := 2019, organization := "Google" }),
   ("BART",
    { architecture := "Encoder-Decoder",
      description := "Bidirectional and Auto-Regressive Transformer",
      huggingface := some [⟨"facebook/bart-base", "base"⟩, ⟨"facebook/bart-large", "large"⟩],
      year := 2019, organization := "Facebook AI" }),
   ("mT5",
    { architecture := "Encoder-Decoder",
      description := "Multilingual T5",
      huggingface := some [⟨"google/mt5-small", "small"⟩, ⟨"google/mt5-base", "base"⟩],
      year := 2020, organization := "Google" })]

/-! ## Paper reference resolver and architecture classifier -/

/-- The all-`"N/A"` sentinel reference. -/
def naPaperRef : PaperRef := ⟨"N/A", "N/A", "N/A", "N/A"⟩

/-- Embedding of `ModelCollector.get_paper_reference`. The only possible
exception is the `KeyError` of `self.paper_sources["Llama"]`, which with
the static table is dead code (`"Llama-3"` is always present). -/
def get_paper_reference (family : String) : Except String PaperRef :=
  match PAPER_SOURCES.lookup family with
  | some r => .ok r
  | none =>
    if isSubstr "llama-3".data (family.data.map Char.toLower) then
      match PAPER_SOURCES.lookup "Llama-3" with
      | some r => .ok r
      | none =>
        match PAPER_SOURCES.lookup "Llama" with
        | some r => .ok r
        | none => .error (pyReprStr "Llama")
    else .ok naPaperRef

/-- Embedding of `ModelCollector.classify_architecture`: first family of
`ARCHITECTURE_DEFS` whose name is a case-insensitive substring of the
model name. -/
def classify_architecture (model_name : String) : String :=
  match ARCHITECTURE_DEFS.find?
      (fun p => isSubstr (p.1.data.map Char.toLower) (model_name.data.map Char.toLower)) with
  | some p => p.2.architecture
  | none => "Unknown"

/-! ## Record assemblers -/

/-- A model record, i.e. the Python dictionary built per model. -/
abbrev ModelRecord := List (String × PyVal)

/-- Identity fields of a `model_info` result, as used by the source.
`downloads`/`likes` carry the `getattr` default `0` when absent; the
timestamp fields are modelled as their already-stringified values. -/
structure HFInfo where
  modelId : String
  author : Option String := none
  downloads : Int := 0
  likes : Int := 0
  pipeline_tag : Option String := none
  library_name : Option String := none
  tags : List String := []
  createdAt : Option String := none
  lastModified : Option String := none

/-- Result of the external fetch collaborator for one model: `info` from
`model_info` and the model card fetch, which fails independently
(`ModelCard.load` has its own `try`/`except`). -/
structure HFFetch where
  info : HFInfo
  card : Except String (String × Metadata)

/-- `x or default` on an optional string (Python `or` also replaces the
empty, falsy string). -/
def orDefault (x : Option String) (d : String) : String :=
  match x with
  | some s => if s = "" then d else s
  | none => d

/-- `model_id.replace('/', '_')`. -/
def replaceSlash (s : String) : String :=
  String.mk (s.data.map (fun c => if c = '/' then '_' else c))

/-- Embedding of `ModelCollector.download_hf_with_sources`. The external
collaborator result is an explicit input `fetch`; the markdown file write
is an excluded external collaborator and is omitted. Any failure (a
failing fetch or a `TypeError` from the extractors) is caught and turned
into the error-marker record. -/
def download_hf_with_sources (accessDate : String) (family : String)
    (mref : HFModelRef) (fetch : Except String HFFetch) : ModelRecord :=
  let attempt : Except String ModelRecord :=
    match fetch with
    | .error e => .error e
    | .ok hf =>
      let cardPair : String × Metadata :=
        match hf.card with
        | .ok cm => cm
        | .error _ => (cardUnavailable, {})
      match extract_parameters_from_card (some cardPair.1) cardPair.2 with
      | .error e => .error e
      | .ok (params, params_source) =>
        match extract_training_data_from_card (some cardPair.1) cardPair.2 with
        | .error e => .error e
        | .ok (training, training_source) =>
          match get_paper_reference family with
          | .error e => .error e
          | .ok paper_ref =>
            let filename := replaceSlash mref.id ++ "_" ++ accessDate ++ ".md"
            .ok [("Modellname", .vStr hf.info.modelId),
                 ("Version", .vStr mref.version),
                 ("Architektur", .vStr (classify_architecture mref.id)),
                 ("Anzahl Parameter", .vStr params),
                 ("Parameter Quelle", .vStr params_source),
                 ("Trainingsbasis", .vStr training),
                 ("Training Data Quelle", .vStr training_source),
                 ("Organisation", .vStr (orDefault hf.info.author "Unknown")),
                 ("Downloads", .vInt hf.info.downloads),
                 ("Likes", .vInt hf.info.likes),
                 ("Pipeline Task", .vStr (orDefault hf.info.pipeline_tag "N/A")),
                 ("Library", .vStr (orDefault hf.info.library_name "N/A")),
                 ("Tags", .vStr (if hf.info.tags.isEmpty then "N/A"
                                 else String.intercalate ", " (hf.info.tags.take 5))),
                 ("Erstellt", .vStr (orDefault hf.info.createdAt "N/A")),
                 ("Letzte Änderung", .vStr (orDefault hf.info.lastModified "N/A")),
                 ("Zugriffsdatum", .vStr accessDate),
                 ("Model Card Datei", .vStr filename),
                 ("Quelle", .vStr "Hugging Face"),
                 ("Model Card URL", .vStr ("https://huggingface.co/" ++ mref.id)),
                 ("Paper Titel", .vStr paper_ref.paper_title),
                 ("Paper Authors", .vStr paper_ref.authors),
                 ("Paper URL", .vStr paper_ref.paper_url),
                 ("Lizenz", cardPair.2.license.getD (.vStr "N/A")),
                 ("Sprache", cardPair.2.language.getD (.vStr "N/A"))]
  match attempt with
  | .ok d => d
  | .error e =>
    [("Modellname", .vStr mref.id), ("Fehler", .vStr e),
     ("Zugriffsdatum", .vStr accessDate)]

/-- Embedding of `ModelCollector.download_proprietary_model_with_sources`.
A `KeyError` on an unknown family is caught and turned into the
error-marker record. -/
def download_proprietary_model_with_sources (accessDate : String)
    (model_family : String) (version_info : VersionInfo) : ModelRecord :=
  let attempt : Except String ModelRecord :=
    match get_paper_reference model_family with
    | .error e => .error e
    | .ok paper_ref =>
      match ARCHITECTURE_DEFS.lookup model_family with
      | none => .error (pyReprStr model_family)
      | some info =>
        .ok [("Modellname", .vStr version_info.name),
          ("Version", .vStr version_info.name),
          ("Architektur", .vStr info.architecture),
          ("Anzahl Parameter", .vStr "Not disclosed"),
          ("Parameter Quelle", .vStr ("Not disclosed by " ++ info.organization)),
          ("Trainingsbasis", .vStr ("See " ++ paper_ref.paper_title ++ " for general description")),
          ("Training Data Quelle", .vStr ("System Card / Technical Report: " ++ paper_ref.paper_url)),
          ("Organisation", .vStr info.organization),
          ("Release-Datum", .vStr version_info.released),
          ("Zugriffsdatum", .vStr accessDate),
          ("Quelle", .vStr "Official Documentation"),
          ("Model Card URL", .vStr "N/A (proprietary)"),
          ("Paper Titel", .vStr paper_ref.paper_title),
          ("Paper Authors", .vStr paper_ref.authors),
          ("Paper URL", .vStr paper_ref.paper_url)]
  match attempt with
  | .ok d => d
  | .error e =>
    [("Modellname", .vStr (model_family ++ " - " ++ version_info.name)),
     ("Fehler", .vStr e), ("Zugriffsdatum", .vStr accessDate)]

/-! ## Collection loop -/

/-- `d[k] = v` on a Python dictionary: update in place when the key
exists, append otherwise. -/
def dictSet (d : ModelRecord) (k : String) (v : PyVal) : ModelRecord :=
  if d.any (fun p => p.1 = k) then
    d.map (fun p => if p.1 = k then (k, v) else p)
  else d ++ [(k, v)]

/-- Key lookup in a record. -/
def dictGet (d : ModelRecord) (k : String) : Option PyVal :=
  (d.find? (fun p => p.1 = k)).map (fun p => p.2)

/-- Family descriptors added to every record inside the loop. -/
def addFamilyFields (family : String) (info : FamilyInfo) (d : ModelRecord) : ModelRecord :=
  dictSet (dictSet (dictSet d "Modell-Familie" (.vStr family))
    "Beschreibung" (.vStr info.description)) "Jahr" (.vInt info.year)

/-- The records of a family's `huggingface` models, in order. The oracle
maps a model id to its external fetch result. -/
def familyHFRecords (accessDate : String) (oracle : String → Except String HFFetch)
    (family : String) (info : FamilyInfo) : List ModelRecord :=
  match info.huggingface with
  | some models => models.map (fun m =>
      addFamilyFields family info (download_hf_with_sources accessDate family m (oracle m.id)))
  | none => []

/-- The records of a family's proprietary `versions`, in order. -/
def familyPropRecords (accessDate : String) (family : String) (info : FamilyInfo) :
    List ModelRecord :=
  match info.versions with
  | some vs => vs.map (fun v =>
      addFamilyFields family info (download_proprietary_model_with_sources accessDate family v))
  | none => []

/-- The loop body of `collect_all_architectures` for one family: returns
the additions to the encoder-only, decoder-only and encoder-decoder
collections. Placement uses only the family's declared `architecture`;
proprietary versions are appended only in the `"Decoder-only"` case. -/
def collectFamily (accessDate : String) (oracle : String → Except String HFFetch)
    (family : String) (info : FamilyInfo) :
    List ModelRecord × List ModelRecord × List ModelRecord :=
  let hf := familyHFRecords accessDate oracle family info
  let props := familyPropRecords accessDate family info
  ((if info.architecture = "Encoder-only" then hf else []),
   (if info.architecture = "Decoder-only" then hf else []) ++
     (if info.architecture = "Decoder-only" then props else []),
   (if info.architecture = "Encoder-Decoder" then hf else []))

/-- The family loop over a table. -/
def collectFamilies (accessDate : String) (oracle : String → Except String HFFetch) :
    List (String × FamilyInfo) → List ModelRecord × List ModelRecord × List ModelRecord
  | [] => ([], [], [])
  | (family, info) :: rest =>
    let h := collectFamily accessDate oracle family info
    let t := collectFamilies accessDate oracle rest
    (h.1 ++ t.1, h.2.1 ++ t.2.1, h.2.2 ++ t.2.2)

/-- Embedding of `ModelCollector.collect_all_architectures` (the DataFrame
construction and Excel export are excluded external collaborators). -/
def collect_all_architectures (accessDate : String)
    (oracle : String → Except String HFFetch) :
    List ModelRecord × List ModelRecord × List ModelRecord :=
  collectFamilies accessDate oracle ARCHITECTURE_DEFS

/-! ## Spec-side definitions for refinement claims -/

/-- The paper resolution rule as the specification words it (§4.3): exact
table match wins; otherwise the `"llama-3"` special case resolves to the
`"Llama-3"` entry, falling back to the `"Llama"` entry when `"Llama-3"` is
absent; otherwise the all-`"N/A"` sentinel. -/
def resolvePaperSpec (family : String) : PaperRef :=
  match PAPER_SOURCES.lookup family with
  | some r => r
  | none =>
    if isSubstr "llama-3".data (family.data.map Char.toLower) then
      match PAPER_SOURCES.lookup "Llama-3" with
      | some r => r
      | none => (PAPER_SOURCES.lookup "Llama").getD naPaperRef
    else naPaperRef

/-- Values Python can iterate over (of the `PyVal` fragment). -/
def iterableVal : PyVal → Bool
  | .vList _ => true
  | .vStr _ => true
  | _ => false

/-- A string, or a list whose elements are all strings (what
`", ".join(v[:5])` accepts without raising). -/
def strListVal : PyVal → Bool
  | .vStr _ => true
  | .vList l => l.all (fun x => match x with | .vStr _ => true | _ => false)
  | _ => false

/-! ## Helper lemmas -/

theorem findFirstMatch_spec (ps : List ((List Char → Option Nat) × String)) (l : List Char) :
    ∀ (k : Nat) (pat : (List Char → Option Nat) × String) (st en : Nat),
      ps.get? k = some pat →
      (∀ j pj, j < k → ps.get? j = some pj → reSearch pj.1 l = none) →
      reSearch pat.1 l = some (st, en) →
      findFirstMatch ps l = some (pat.2, st, en) := by
  induction ps with
  | nil => intro k pat st en hk _ _; simp at hk
  | cons p ps ih =>
    intro k pat st en hk hprev hm
    obtain ⟨m, d⟩ := p
    cases k with
    | zero =>
      rw [List.get?_cons_zero] at hk
      cases hk
      unfold findFirstMatch
      rw [hm]
    | succ k =>
      have h0 : reSearch m l = none := hprev 0 (m, d) (Nat.succ_pos k) rfl
      rw [List.get?_cons_succ] at hk
      have htail := ih k pat st en hk
        (fun j pj hj hg => hprev (j + 1) pj (by omega) (by simpa using hg)) hm
      unfold findFirstMatch
      rw [h0]
      exact htail

theorem findSection_spec (ps : List ((List Char → Option (List Char)) × String)) (l : List Char) :
    ∀ (k : Nat) (pat : (List Char → Option (List Char)) × String) (cap : List Char),
      ps.get? k = some pat →
      (∀ j pj, j < k → ps.get? j = some pj →
        reSearchCap pj.1 l = none ∨
          ∃ cj, reSearchCap pj.1 l = some cj ∧ processCapture cj = []) →
      reSearchCap pat.1 l = some cap →
      processCapture cap ≠ [] →
      findSection ps l = some (String.mk (processCapture cap), pat.2) := by
  induction ps with
  | nil => intro k pat cap hk _ _ _; simp at hk
  | cons p ps ih =>
    intro k pat cap hk hprev hm hne
    obtain ⟨m, d⟩ := p
    cases k with
    | zero =>
      rw [List.get?_cons_zero] at hk
      cases hk
      unfold findSection
      rw [hm]
      simp only [if_neg hne]
    | succ k =>
      have h0 := hprev 0 (m, d) (Nat.succ_pos k) rfl
      rw [List.get?_cons_succ] at hk
      have htail := ih k pat cap hk
        (fun j pj hj hg => hprev (j + 1) pj (by omega) (by simpa using hg)) hm hne
      unfold findSection
      rcases h0 with h0 | ⟨cj, hcj, hempty⟩
      · rw [h0]
        exact htail
      · rw [hcj]
        simp only [if_pos hempty]
        exact htail

theorem find?_append_of_none {α : Type} (p : α → Bool) (l1 l2 : List α)
    (h : ∀ x ∈ l1, p x = false) : (l1 ++ l2).find? p = l2.find? p := by
  induction l1 with
  | nil => rfl
  | cons a t ih =>
    have ha := h a (List.mem_cons_self a t)
    simp only [List.cons_append, List.find?, ha]
    exact ih (fun x hx => h x (List.mem_cons_of_mem a hx))

theorem findTag_append (l1 l2 : List PyVal) (t : PyVal)
    (h1 : ∀ u ∈ l1, tagMatches u = false) (ht : tagMatches t = true) :
    findTag (l1 ++ t :: l2) = some t := by
  induction l1 with
  | nil => simp [findTag, ht]
  | cons a tl ih =>
    have ha := h1 a (List.mem_cons_self a tl)
    rw [List.cons_append]
    unfold findTag
    rw [ha]
    simp only [Bool.false_eq_true, if_false]
    exact ih (fun u hu => h1 u (List.mem_cons_of_mem a hu))

theorem findTag_none (l : List PyVal) (h : ∀ u ∈ l, tagMatches u = false) :
    findTag l = none := by
  induction l with
  | nil => rfl
  | cons a tl ih =>
    have ha := h a (List.mem_cons_self a tl)
    unfold findTag
    rw [ha]
    simp only [Bool.false_eq_true, if_false]
    exact ih (fun u hu => h u (List.mem_cons_of_mem a hu))

theorem joinCheck_ok (l : List PyVal)
    (h : ∀ x ∈ l, (match x with | PyVal.vStr _ => true | _ => false) = true) :
    ∀ i, ∃ r, joinCheck i l = .ok r := by
  induction l with
  | nil => intro i; exact ⟨[], rfl⟩
  | cons a tl ih =>
    intro i
    have htl := fun x hx => h x (List.mem_cons_of_mem a hx)
    have ha := h a (List.mem_cons_self a tl)
    cases a with
    | vStr s =>
      obtain ⟨r, hr⟩ := ih htl (i + 1)
      exact ⟨s :: r, by simp [joinCheck, hr, Except.map]⟩
    | vNone => simp at ha
    | vBool b => simp at ha
    | vInt n => simp at ha
    | vList m => simp at ha

theorem datasetsJoin_ok (v : PyVal) (h : strListVal v = true) :
    ∃ r, datasetsJoin v = .ok r := by
  cases v with
  | vStr s =>
    have hall : ∀ x ∈ (s.data.map (fun c => PyVal.vStr (String.mk [c]))).take 5,
        (match x with | PyVal.vStr _ => true | _ => false) = true := by
      intro x hx
      obtain ⟨c, _, rfl⟩ := List.mem_map.mp (List.mem_of_mem_take hx)
      rfl
    obtain ⟨r, hr⟩ := joinCheck_ok _ hall 0
    exact ⟨String.intercalate ", " r, by
      simp [datasetsJoin, pySlice, pyJoin, pyIter, hr, bind, Except.bind, pure, Except.pure]⟩
  | vList l =>
    have hall : ∀ x ∈ l.take 5, (match x with | PyVal.vStr _ => true | _ => false) = true := by
      intro x hx
      have hx' : x ∈ l := List.mem_of_mem_take hx
      simpa using (List.all_eq_true.mp (by simpa [strListVal] using h)) x hx'
    obtain ⟨r, hr⟩ := joinCheck_ok _ hall 0
    exact ⟨String.intercalate ", " r, by
      simp [datasetsJoin, pySlice, pyJoin, pyIter, hr, bind, Except.bind, pure, Except.pure]⟩
  | vNone => simp [strListVal] at h
  | vBool b => simp [strListVal] at h
  | vInt n => simp [strListVal] at h

/-! ## Claims -/

/-- C3: for every family name, `get_paper_reference` behaves exactly as
the specification's resolution rule (exact key first, then the
`"llama-3"` special case resolving to the `"Llama-3"` entry with the
`"Llama"` fallback, then the all-`"N/A"` sentinel) and never fails; in
particular `"Llama-3.1-8B"` resolves to the `"Llama-3"` entry and not to
the generic `"Llama"` entry, and an unknown family gets the sentinel. -/
theorem c3_paper_reference_resolution :
    (∀ family, get_paper_reference family = .ok (resolvePaperSpec family)) ∧
    get_paper_reference "Llama-3.1-8B" =
      .ok ⟨"https://arxiv.org/abs/2407.21783", "The Llama 3 Herd of Models",
           "Meta AI, 2024", "arXiv"⟩ ∧
    decide (resolvePaperSpec "Llama-3.1-8B" =
      (⟨"https://arxiv.org/abs/2307.09288",
        "Llama 2: Open Foundation and Fine-Tuned Chat Models",
        "Touvron et al., 2023", "arXiv"⟩ : PaperRef)) = false ∧
    get_paper_reference "unknown-family" = .ok naPaperRef := by
  refine ⟨?_, rfl, by decide, rfl⟩
  intro family
  unfold get_paper_reference resolvePaperSpec
  cases h : PAPER_SOURCES.lookup family with
  | some r => rfl
  | none =>
    by_cases hs : isSubstr "llama-3".data (family.data.map Char.toLower) = true
    · simp only [if_pos hs]
      rfl
    · simp only [if_neg hs]

/-- C4: `classify_architecture` returns the architecture of the first
family of `ARCHITECTURE_DEFS` (in table order) whose name is a
case-insensitive substring of the model identifier, and `"Unknown"` when
no family name occurs; `classify_architecture "meta-llama/Llama-2-7b-hf"`
is `"Decoder-only"`. -/
theorem c4_architecture_classification :
    (∀ name : String,
      (∀ p ∈ ARCHITECTURE_DEFS,
        isSubstr (p.1.data.map Char.toLower) (name.data.map Char.toLower) = false) →
      classify_architecture name = "Unknown") ∧
    (∀ (name : String) (l1 : List (String × FamilyInfo)) (fam : String)
        (info : FamilyInfo) (l2 : List (String × FamilyInfo)),
      ARCHITECTURE_DEFS = l1 ++ (fam, info) :: l2 →
      (∀ p ∈ l1,
        isSubstr (p.1.data.map Char.toLower) (name.data.map Char.toLower) = false) →
      isSubstr (fam.data.map Char.toLower) (name.data.map Char.toLower) = true →
      classify_architecture name = info.architecture) ∧
    classify_architecture "meta-llama/Llama-2-7b-hf" = "Decoder-only" := by
  refine ⟨?_, ?_, by decide⟩
  · intro name h
    unfold classify_architecture
    rw [List.find?_eq_none.mpr (fun p hp => by simp [h p hp])]
  · intro name l1 fam info l2 htab h1 hm
    unfold classify_architecture
    rw [htab, find?_append_of_none _ l1 _ (fun p hp => h1 p hp)]
    simp only [List.find?, hm]

/-- C4 witness: `"FacebookAI/roberta-base"` is classified by the first
matching family in table order — `"BERT"`, whose name is nested inside
`"roberta"`. -/
theorem c4_witness :
    classify_architecture "FacebookAI/roberta-base" = "Encoder-only" := by
  exact c4_architecture_classification.2.1 "FacebookAI/roberta-base" [] "BERT" _ _
    rfl (by simp) (by decide)

/-- C5: with an absent card text (`None`, the empty string, or the
"card unavailable" sentinel), `extract_parameters_from_card` returns the
NOT_FOUND value with the "Model Card not available" provenance, for every
metadata mapping. -/
theorem c5_absent_card_parameters :
    ∀ m : Metadata,
      extract_parameters_from_card none m =
        .ok ("Not found in Model Card", "Model Card not available") ∧
      extract_parameters_from_card (some "") m =
        .ok ("Not found in Model Card", "Model Card not available") ∧
      extract_parameters_from_card (some cardUnavailable) m =
        .ok ("Not found in Model Card", "Model Card not available") := by
  intro m
  refine ⟨rfl, ?_, ?_⟩ <;> simp [extract_parameters_from_card, cardUnavailable]

/-- C1: for a present card text, `extract_parameters_from_card` tries the
four parameter patterns in their fixed order; the first pattern with a
search hit determines the result (no later pattern is consulted); the
value is the full matched substring and the provenance embeds up to 50
characters of context on each side with newlines replaced by spaces. The
`"This model has 110M parameters."` example returns the matched
`"110M parameters"` with its context provenance. -/
theorem c1_parameter_pattern_order :
    (∀ (c : String) (m : Metadata) (k : Nat)
        (pat : (List Char → Option Nat) × String) (st en : Nat),
      c ≠ "" → c ≠ cardUnavailable →
      paramPatterns.get? k = some pat →
      (∀ j pj, j < k → paramPatterns.get? j = some pj → reSearch pj.1 c.data = none) →
      reSearch pat.1 c.data = some (st, en) →
      extract_parameters_from_card (some c) m =
        .ok (String.mk ((c.data.drop st).take (en - st)),
          pat.2 ++ ": '" ++
            String.mk (((c.data.drop (st - 50)).take
                (min c.data.length (en + 50) - (st - 50))).map
              (fun ch => if ch = '\n' then ' ' else ch)) ++ "...'")) ∧
    extract_parameters_from_card (some "This model has 110M parameters.") {} =
      .ok ("110M parameters",
           "Model Card text: 'This model has 110M parameters....'") := by
  constructor
  · intro c m k pat st en hne hns hk hprev hm
    have hfind := findFirstMatch_spec paramPatterns c.data k pat st en hk hprev hm
    unfold extract_parameters_from_card
    dsimp only
    rw [if_neg (by simp [hne, hns]), hfind]
  · rfl

/-- C1 witness: the fourth pattern (`model size`) decides when the three
earlier patterns have no match. -/
theorem c1_witness :
    extract_parameters_from_card (some "Model size: 3B total") {} =
      .ok ("Model size: 3B",
           "Model Card size specification: 'Model size: 3B total...'") := by
  have hprev : ∀ j pj, j < 3 → paramPatterns.get? j = some pj →
      reSearch pj.1 "Model size: 3B total".data = none := by
    intro j pj hj hg
    interval_cases j <;>
      (simp only [paramPatterns, List.get?_cons_zero, List.get?_cons_succ] at hg;
       cases hg; decide)
  have h := c1_parameter_pattern_order.1 "Model size: 3B total" {} 3
    (matchParamP4, "Model Card size specification") 0 14
    (by decide) (by decide) rfl hprev (by decide)
  rw [h]
  rfl

/-- C2 (amended): for a present card text,
`extract_training_data_from_card` tries the five section patterns in
their fixed order; each match's captured body is stripped, truncated to
its first line and then to at most 200 characters, and the first pattern
whose processed body is non-empty determines the result, returned with
the provenance naming that section; whenever the stripped first line is
longer than 200 characters the returned value is exactly its first 200
characters, preserving character order. -/
theorem c2_training_section_selection :
    (∀ (c : String) (m : Metadata) (k : Nat)
        (pat : (List Char → Option (List Char)) × String) (cap : List Char),
      c ≠ "" → c ≠ cardUnavailable →
      sectionPatterns.get? k = some pat →
      (∀ j pj, j < k → sectionPatterns.get? j = some pj →
        reSearchCap pj.1 c.data = none ∨
          ∃ cj, reSearchCap pj.1 c.data = some cj ∧ processCapture cj = []) →
      reSearchCap pat.1 c.data = some cap →
      processCapture cap ≠ [] →
      extract_training_data_from_card (some c) m =
        .ok (String.mk (processCapture cap), pat.2)) ∧
    (∀ cap : List Char, 200 < (firstLine (stripChars cap)).length →
      (processCapture cap).length = 200 ∧
      processCapture cap = (firstLine (stripChars cap)).take 200) := by
  constructor
  · intro c m k pat cap hne hns hk hprev hm hcap
    have hfind := findSection_spec sectionPatterns c.data k pat cap hk hprev hm hcap
    unfold extract_training_data_from_card
    dsimp only
    rw [if_neg (by simp [hne, hns]), hfind]
  · intro cap hlen
    refine ⟨?_, rfl⟩
    simp only [processCapture, List.length_take]
    omega

set_option maxRecDepth 4000 in
/-- C2 counterexample: on
`"Trained on: wiki\n## Training Data\n "` the first section pattern
(`## Training Data`) does have a match (with whitespace-only capture),
yet the returned provenance is that of the fourth pattern
(`Trained on:`), so "the first pattern that matches determines the
result" is false as stated. -/
theorem c2_counterexample :
    reSearchCap (matchSectionHdr "## Training Data".data)
        "Trained on: wiki\n## Training Data\n ".data = some [' '] ∧
    extract_training_data_from_card
        (some "Trained on: wiki\n## Training Data\n ") {} =
      .ok ("wiki", "Model Card: Training description") ∧
    decide (("Model Card: Training description" : String) =
      "Model Card: 'Training Data' section") = false := by
  refine ⟨by decide, by rfl, by decide⟩

set_option maxRecDepth 8000 in
/-- C2 witness: the `## Dataset` section decides when `## Training Data`
has no match, and a 201-character first line is cut to exactly 200. -/
theorem c2_witness :
    extract_training_data_from_card (some "## Dataset\nC4 corpus") {} =
      .ok ("C4 corpus", "Model Card: 'Dataset' section") ∧
    (processCapture (List.replicate 201 'a')).length = 200 := by
  constructor
  · have hprev : ∀ j pj, j < 1 → sectionPatterns.get? j = some pj →
        reSearchCap pj.1 "## Dataset\nC4 corpus".data = none ∨
          ∃ cj, reSearchCap pj.1 "## Dataset\nC4 corpus".data = some cj ∧
            processCapture cj = [] := by
      intro j pj hj hg
      interval_cases j
      simp only [sectionPatterns, List.get?_cons_zero] at hg
      cases hg
      exact Or.inl (by decide)
    have h := c2_training_section_selection.1 "## Dataset\nC4 corpus" {} 1
      (matchSectionHdr "## Dataset".data, "Model Card: 'Dataset' section")
      "C4 corpus".data (by decide) (by decide) rfl hprev (by decide) (by decide)
    rw [h]
    rfl
  · exact (c2_training_section_selection.2 (List.replicate 201 'a') (by decide)).1

/-- C6: when no parameter pattern matches a present card, a present
non-empty tags list whose first matching tag (containing one of
base/large/small/7b/13b/70b case-insensitively) is `t` yields
`"Inferred from tags: <t>"` with the `"Model metadata tags"` provenance;
when no tag matches (in particular for the empty list) the
NOT_SPECIFIED sentinel is returned with the "no parameter count found"
provenance. -/
theorem c6_tag_fallback :
    (∀ (c : String) (m : Metadata) (l1 : List PyVal) (t : PyVal) (l2 : List PyVal),
      c ≠ "" → c ≠ cardUnavailable →
      findFirstMatch paramPatterns c.data = none →
      m.tags = some (.vList (l1 ++ t :: l2)) →
      (∀ u ∈ l1, tagMatches u = false) →
      tagMatches t = true →
      extract_parameters_from_card (some c) m =
        .ok ("Inferred from tags: " ++ pyStr t, "Model metadata tags")) ∧
    (∀ (c : String) (m : Metadata) (tags : List PyVal),
      c ≠ "" → c ≠ cardUnavailable →
      findFirstMatch paramPatterns c.data = none →
      m.tags = some (.vList tags) →
      (∀ u ∈ tags, tagMatches u = false) →
      extract_parameters_from_card (some c) m =
        .ok ("Not specified in Model Card",
             "Model Card checked, no parameter count found")) := by
  constructor
  · intro c m l1 t l2 hne hns hnf htags h1 ht
    unfold extract_parameters_from_card
    dsimp only
    rw [if_neg (by simp [hne, hns]), hnf, htags]
    dsimp only
    have htruthy : pyTruthy (PyVal.vList (l1 ++ t :: l2)) = true := by
      simp [pyTruthy]
    rw [if_pos htruthy]
    dsimp only [pyIter]
    rw [findTag_append l1 l2 t h1 ht]
  · intro c m tags hne hns hnf htags hall
    unfold extract_parameters_from_card
    dsimp only
    rw [if_neg (by simp [hne, hns]), hnf, htags]
    dsimp only
    cases tags with
    | nil => rfl
    | cons a tl =>
      have htruthy : pyTruthy (PyVal.vList (a :: tl)) = true := by simp [pyTruthy]
      rw [if_pos htruthy]
      dsimp only [pyIter]
      rw [findTag_none (a :: tl) hall]

/-- C6 witness: card `"hello"` matches no pattern; the second tag
`"7B-chat"` is the first one containing a size keyword (`7b`). -/
theorem c6_witness :
    extract_parameters_from_card (some "hello")
        { tags := some (.vList [.vStr "pytorch", .vStr "7B-chat"]) } =
      .ok ("Inferred from tags: 7B-chat", "Model metadata tags") := by
  have h1 : ∀ u ∈ [PyVal.vStr "pytorch"], tagMatches u = false := by
    intro u hu
    rw [List.mem_singleton] at hu
    subst hu
    decide
  have h := c6_tag_fallback.1 "hello"
    { tags := some (.vList [.vStr "pytorch", .vStr "7B-chat"]) }
    [.vStr "pytorch"] (.vStr "7B-chat") []
    (by decide) (by decide) (by decide) rfl h1 (by decide)
  rw [h]
  rfl

/-- C7 counterexample: with a truthy non-iterable `tags` entry the
parameter extractor raises a `TypeError` instead of returning a pair, and
with a truthy non-subscriptable `datasets` entry so does the
training-data extractor — the extractors are not total over metadata
entries of arbitrary type. -/
theorem c7_counterexample :
    extract_parameters_from_card (some "x") { tags := some (.vInt 5) } =
      .error "'int' object is not iterable" ∧
    extract_training_data_from_card none { datasets := some (.vInt 5) } =
      .error "'int' object is not subscriptable" := ⟨rfl, rfl⟩

/-- C7 (amended): both extractors are total — returning a concrete
`(value, provenance)` pair and never raising — for every card-text input
(present, absent or the unavailable sentinel) whenever the metadata's
`tags` entry, if present and truthy, is a list or a string, and its
`datasets` entry, if present and truthy, is a string or a list of
strings. -/
theorem c7_extractor_totality :
    ∀ (card : Option String) (m : Metadata),
      (∀ v, m.tags = some v → pyTruthy v = true → iterableVal v = true) →
      (∀ v, m.datasets = some v → pyTruthy v = true → strListVal v = true) →
      (∃ p, extract_parameters_from_card card m = .ok p) ∧
      (∃ q, extract_training_data_from_card card m = .ok q) := by
  intro card m htags hds
  have hdatasets : ∀ dv, m.datasets = some dv → pyTruthy dv = true →
      ∃ j, datasetsJoin dv = Except.ok j := by
    intro dv hdv htr
    exact datasetsJoin_ok dv (hds dv hdv htr)
  constructor
  · cases card with
    | none => exact ⟨_, rfl⟩
    | some s =>
      unfold extract_parameters_from_card
      dsimp only
      by_cases hempty : s = ""
      · rw [if_pos (by simp [hempty])]
        exact ⟨_, rfl⟩
      by_cases hsent : s = cardUnavailable
      · rw [if_pos (by simp [hsent])]
        exact ⟨_, rfl⟩
      rw [if_neg (by simp [hempty, hsent])]
      cases hf : findFirstMatch paramPatterns s.data with
      | some r =>
        obtain ⟨d, st, en⟩ := r
        exact ⟨_, rfl⟩
      | none =>
        cases htv : m.tags with
        | none => exact ⟨_, rfl⟩
        | some tv =>
          dsimp only
          by_cases htr : pyTruthy tv = true
          · have hit := htags tv htv htr
            rw [if_pos htr]
            cases tv with
            | vList l =>
              dsimp only [pyIter]
              cases hft : findTag l with
              | some t => exact ⟨_, rfl⟩
              | none => exact ⟨_, rfl⟩
            | vStr str =>
              dsimp only [pyIter]
              cases hft : findTag (str.data.map (fun c => PyVal.vStr (String.mk [c]))) with
              | some t => exact ⟨_, rfl⟩
              | none => exact ⟨_, rfl⟩
            | vNone => simp [iterableVal] at hit
            | vBool b => simp [iterableVal] at hit
            | vInt n => simp [iterableVal] at hit
          · rw [if_neg htr]
            exact ⟨_, rfl⟩
  · cases card with
    | none =>
      unfold extract_training_data_from_card
      dsimp only
      cases hdv : m.datasets with
      | none => exact ⟨_, rfl⟩
      | some dv =>
        dsimp only
        by_cases htr : pyTruthy dv = true
        · obtain ⟨j, hj⟩ := hdatasets dv hdv htr
          rw [if_pos htr]
          exact ⟨(j, "Hugging Face metadata: 'datasets' field"),
            by simp [hj, bind, Except.bind, pure, Except.pure]⟩
        · rw [if_neg htr]
          exact ⟨_, rfl⟩
    | some s =>
      unfold extract_training_data_from_card
      dsimp only
      by_cases hguard : (decide (s = "") || decide (s = cardUnavailable)) = true
      · rw [if_pos hguard]
        cases hdv : m.datasets with
        | none => exact ⟨_, rfl⟩
        | some dv =>
          dsimp only
          by_cases htr : pyTruthy dv = true
          · obtain ⟨j, hj⟩ := hdatasets dv hdv htr
            rw [if_pos htr]
            exact ⟨(j, "Hugging Face metadata: 'datasets' field"),
              by simp [hj, bind, Except.bind, pure, Except.pure]⟩
          · rw [if_neg htr]
            exact ⟨_, rfl⟩
      · rw [if_neg hguard]
        cases hsec : findSection sectionPatterns s.data with
        | some r => exact ⟨_, rfl⟩
        | none =>
          cases hdv : m.datasets with
          | none => exact ⟨_, rfl⟩
          | some dv =>
            dsimp only
            by_cases htr : pyTruthy dv = true
            · obtain ⟨j, hj⟩ := hdatasets dv hdv htr
              rw [if_pos htr]
              exact ⟨(j, "Hugging Face metadata: 'datasets' field"),
                by simp [hj, bind, Except.bind, pure, Except.pure]⟩
            · rw [if_neg htr]
              exact ⟨_, rfl⟩

/-- C7 witness: a list-valued tags entry (with a non-string element) and
a string-valued datasets entry are handled totally. -/
theorem c7_witness :
    (∃ p, extract_parameters_from_card (some "x")
        { tags := some (.vList [.vInt 3]), datasets := some (.vStr "ab") } = .ok p) ∧
    (∃ q, extract_training_data_from_card (some "x")
        { tags := some (.vList [.vInt 3]), datasets := some (.vStr "ab") } = .ok q) := by
  refine c7_extractor_totality (some "x")
    { tags := some (.vList [.vInt 3]), datasets := some (.vStr "ab") } ?_ ?_
  · intro v hv _
    cases hv
    decide
  · intro v hv _
    cases hv
    decide

/-- C8: a failing fetch for an open model yields the error-marker record
(model name, raw error description, access date) instead of propagating,
and the collection loop still produces one record per configured model —
7 encoder-only, 16 decoder-only and 9 encoder-decoder records — for
every oracle, so one failing model never aborts the batch. -/
theorem c8_collaborator_failure :
    (∀ (accessDate family : String) (mref : HFModelRef) (e : String),
      download_hf_with_sources accessDate family mref (.error e) =
        [("Modellname", .vStr mref.id), ("Fehler", .vStr e),
         ("Zugriffsdatum", .vStr accessDate)]) ∧
    (∀ (accessDate : String) (oracle : String → Except String HFFetch),
      (collect_all_architectures accessDate oracle).1.length = 7 ∧
      (collect_all_architectures accessDate oracle).2.1.length = 16 ∧
      (collect_all_architectures accessDate oracle).2.2.length = 9) := by
  constructor
  · intro ad fam mref e
    rfl
  · intro ad oracle
    exact ⟨rfl, rfl, rfl⟩

/-- C9: for every family of the static table and every version
descriptor, the proprietary record carries the `"Not disclosed"`
parameter sentinel with provenance `"Not disclosed by <organization>"`
(organization from the static table), and a training-data value
referencing the resolved paper title with a provenance containing the
paper URL; the full record shows no free-text extraction is involved. -/
theorem c9_proprietary_record :
    ∀ (accessDate family : String) (info : FamilyInfo) (pr : PaperRef)
      (v : VersionInfo),
      ARCHITECTURE_DEFS.lookup family = some info →
      get_paper_reference family = .ok pr →
      download_proprietary_model_with_sources accessDate family v =
        [("Modellname", .vStr v.name),
         ("Version", .vStr v.name),
         ("Architektur", .vStr info.architecture),
         ("Anzahl Parameter", .vStr "Not disclosed"),
         ("Parameter Quelle", .vStr ("Not disclosed by " ++ info.organization)),
         ("Trainingsbasis", .vStr ("See " ++ pr.paper_title ++ " for general description")),
         ("Training Data Quelle", .vStr ("System Card / Technical Report: " ++ pr.paper_url)),
         ("Organisation", .vStr info.organization),
         ("Release-Datum", .vStr v.released),
         ("Zugriffsdatum", .vStr accessDate),
         ("Quelle", .vStr "Official Documentation"),
         ("Model Card URL", .vStr "N/A (proprietary)"),
         ("Paper Titel", .vStr pr.paper_title),
         ("Paper Authors", .vStr pr.authors),
         ("Paper URL", .vStr pr.paper_url)] := by
  intro ad fam info pr v hlook hpr
  unfold download_proprietary_model_with_sources
  rw [hpr, hlook]

/-- C9 witness: the `"GPT-4 Turbo"` version of the `"GPT-4"` family. -/
theorem c9_witness :
    download_proprietary_model_with_sources "2025-12-05" "GPT-4"
        ⟨"GPT-4 Turbo", "2023-11-06"⟩ =
      [("Modellname", .vStr "GPT-4 Turbo"),
       ("Version", .vStr "GPT-4 Turbo"),
       ("Architektur", .vStr "Decoder-only"),
       ("Anzahl Parameter", .vStr "Not disclosed"),
       ("Parameter Quelle", .vStr "Not disclosed by OpenAI"),
       ("Trainingsbasis", .vStr "See GPT-4 System Card for general description"),
       ("Training Data Quelle",
        .vStr "System Card / Technical Report: https://cdn.openai.com/papers/gpt-4-system-card.pdf"),
       ("Organisation", .vStr "OpenAI"),
       ("Release-Datum", .vStr "2023-11-06"),
       ("Zugriffsdatum", .vStr "2025-12-05"),
       ("Quelle", .vStr "Official Documentation"),
       ("Model Card URL", .vStr "N/A (proprietary)"),
       ("Paper Titel", .vStr "GPT-4 System Card"),
       ("Paper Authors", .vStr "OpenAI, 2023"),
       ("Paper URL", .vStr "https://cdn.openai.com/papers/gpt-4-system-card.pdf")] := by
  rw [c9_proprietary_record "2025-12-05" "GPT-4"
    { architecture := "Decoder-only",
      description := "Generative Pre-trained Transformer 4",
      versions := some [⟨"GPT-4", "2023-03-14"⟩, ⟨"GPT-4 Turbo", "2023-11-06"⟩,
                        ⟨"GPT-4o", "2024-05-13"⟩],
      year := 2023, organization := "OpenAI" }
    ⟨"https://cdn.openai.com/papers/gpt-4-system-card.pdf", "GPT-4 System Card",
     "OpenAI, 2023", "OpenAI"⟩
    ⟨"GPT-4 Turbo", "2023-11-06"⟩ rfl rfl]
  rfl

/-- C10: a record's output collection is determined solely by the
family's declared architecture — all records of a family (open-model
records, including error markers) go to the collection of the declared
architecture, proprietary versions only to the decoder-only collection
(and nowhere for a family whose declared architecture is not
decoder-only) — while the classifier's result only populates the record's
`"Architektur"` field and never affects placement. -/
theorem c10_architecture_placement :
    (∀ (ad : String) (oracle : String → Except String HFFetch)
        (fam : String) (info : FamilyInfo),
      info.architecture = "Encoder-only" →
      collectFamily ad oracle fam info =
        (familyHFRecords ad oracle fam info, [], [])) ∧
    (∀ (ad : String) (oracle : String → Except String HFFetch)
        (fam : String) (info : FamilyInfo),
      info.architecture = "Decoder-only" →
      collectFamily ad oracle fam info =
        ([], familyHFRecords ad oracle fam info ++ familyPropRecords ad fam info, [])) ∧
    (∀ (ad : String) (oracle : String → Except String HFFetch)
        (fam : String) (info : FamilyInfo),
      info.architecture = "Encoder-Decoder" →
      collectFamily ad oracle fam info =
        ([], [], familyHFRecords ad oracle fam info)) ∧
    (∀ (ad : String) (oracle : String → Except String HFFetch)
        (fam : String) (info : FamilyInfo),
      info.architecture ≠ "Encoder-only" →
      info.architecture ≠ "Decoder-only" →
      info.architecture ≠ "Encoder-Decoder" →
      collectFamily ad oracle fam info = ([], [], [])) ∧
    (∀ (ad fam : String) (mref : HFModelRef) (fetch : Except String HFFetch),
      dictGet (download_hf_with_sources ad fam mref fetch) "Architektur" = none ∨
      dictGet (download_hf_with_sources ad fam mref fetch) "Architektur" =
        some (.vStr (classify_architecture mref.id))) := by
  refine ⟨?_, ?_, ?_, ?_, ?_⟩
  · intro ad oracle fam info h
    unfold collectFamily
    rw [h]
    simp
  · intro ad oracle fam info h
    unfold collectFamily
    rw [h]
    simp
  · intro ad oracle fam info h
    unfold collectFamily
    rw [h]
    simp
  · intro ad oracle fam info h1 h2 h3
    unfold collectFamily
    simp [h1, h2, h3]
  · intro ad fam mref fetch
    unfold download_hf_with_sources
    cases fetch with
    | error e => exact Or.inl rfl
    | ok hf =>
      obtain ⟨inf, cardR⟩ := hf
      cases cardR with
      | ok cm =>
        obtain ⟨cc, cmeta⟩ := cm
        dsimp only
        cases hp : extract_parameters_from_card (some cc) cmeta with
        | error e => exact Or.inl rfl
        | ok pv =>
          obtain ⟨params, psrc⟩ := pv
          cases ht : extract_training_data_from_card (some cc) cmeta with
          | error e => exact Or.inl rfl
          | ok tv =>
            obtain ⟨training, tsrc⟩ := tv
            cases hg : get_paper_reference fam with
            | error e => exact Or.inl rfl
            | ok pr => exact Or.inr rfl
      | error ce =>
        dsimp only
        cases hg : get_paper_reference fam with
        | error e => exact Or.inl rfl
        | ok pr => exact Or.inr rfl

/-- C10 witness: the T5 family (declared Encoder-Decoder) sends all its
records to the encoder-decoder collection even under a failing oracle,
and a hypothetical family with an unrecognized declared architecture
contributes to no collection. -/
theorem c10_witness :
    collectFamily "2025-12-05" (fun _ => .error "offline") "T5"
        { architecture := "Encoder-Decoder",
          description := "Text-to-Text Transfer Transformer",
          huggingface := some [⟨"google-t5/t5-small", "small"⟩, ⟨"google-t5/t5-base", "base"⟩,
                               ⟨"google-t5/t5-large", "large"⟩, ⟨"google-t5/t5-3b", "3B"⟩,
                               ⟨"google-t5/t5-11b", "11B"⟩],
          year := 2019, organization := "Google" } =
      ([], [],
       familyHFRecords "2025-12-05" (fun _ => .error "offline") "T5"
        { architecture := "Encoder-Decoder",
          description := "Text-to-Text Transfer Transformer",
          huggingface := some [⟨"google-t5/t5-small", "small"⟩, ⟨"google-t5/t5-base", "base"⟩,
                               ⟨"google-t5/t5-large", "large"⟩, ⟨"google-t5/t5-3b", "3B"⟩,
                               ⟨"google-t5/t5-11b", "11B"⟩],
          year := 2019, organization := "Google" }) ∧
    collectFamily "2025-12-05" (fun _ => .error "offline") "Misc"
        { architecture := "State-space",
          description := "hypothetical",
          versions := some [⟨"M1", "2024-01"⟩],
          year := 2024, organization := "None" } = ([], [], []) :=
  ⟨c10_architecture_placement.2.2.1 "2025-12-05" (fun _ => .error "offline") "T5" _ rfl,
   c10_architecture_placement.2.2.2.1 "2025-12-05" (fun _ => .error "offline") "Misc" _
     (by decide) (by decide) (by decide)⟩

end ModelCardCollector
